import Mathlib

/-!
Shallow embedding of `src/lib/platforms/googleaction/googleActionResponse.js`.

The JS class `GoogleActionResponse` wraps a plain response object
`this.responseObj` of shape
`{speech, data: {google: {expectUserResponse, richResponse: {items}, ...}}, contextOut}`.
The embedding flattens that fixed nesting into the structure `ResponseObj`
below; fields that the constructor does not create (and that JS therefore
leaves `undefined` until some builder call sets them) are modelled as
`Option`.  Methods that can raise a JS exception are modelled in
`Except JSError`; a JS `TypeError` raised by reading a property of
`undefined` is `JSError.typeError`, and an explicit `throw new Error(msg)`
is `JSError.error msg`.  Context-parameter values are modelled as strings.
-/

set_option autoImplicit false

namespace GoogleActionResponse

/-! ## JS string primitives

`text.replace(/<speak>/g, '')` scans left to right, removing
non-overlapping occurrences of the literal pattern; removed text is not
rescanned.  `removeAll` implements exactly that scan; the `fuel` argument
only bounds the recursion depth and `jsRemoveAll` supplies `s.length`,
which is always sufficient (each step consumes at least one character).
-/

def removeAll (pat : List Char) : Nat → List Char → List Char
  | _, [] => []
  | 0, s => s
  | fuel+1, c :: rest =>
    if pat.isPrefixOf (c :: rest) then
      removeAll pat fuel (rest.drop (pat.length - 1))
    else
      c :: removeAll pat fuel rest

def jsRemoveAll (pat s : List Char) : List Char :=
  removeAll pat s.length s

/-- JS substring test, `s.indexOf(pat) > -1`. -/
def substrB (pat : List Char) : List Char → Bool
  | [] => pat.isEmpty
  | c :: rest => pat.isPrefixOf (c :: rest) || substrB pat rest

/-- The characters of the opening envelope tag. -/
def spTag : List Char := "<speak>".data

/-- The characters of the closing envelope tag. -/
def clTag : List Char := "</speak>".data

/-- `removeSpeakTags(text)` (line 613): `text.replace(/<speak>/g, '').replace(/<\/speak>/g, '')`. -/
def removeSpeakTags (s : String) : String :=
  String.mk (jsRemoveAll clTag (jsRemoveAll spTag s.data))

/-- `toSSML(text)` (line 622): strips both tags exactly as `removeSpeakTags`
does, then surrounds the result with one `speak` envelope. -/
def toSSML (s : String) : String :=
  String.mk (spTag ++ (removeSpeakTags s).data ++ clTag)

/-! ## Data model -/

inductive JSError where
  | typeError
  | error (msg : String)
deriving DecidableEq

instance {ε α : Type} [DecidableEq ε] [DecidableEq α] : DecidableEq (Except ε α) :=
  fun a b =>
    match a, b with
    | Except.ok x, Except.ok y =>
      if h : x = y then Decidable.isTrue (by rw [h])
      else Decidable.isFalse (fun hc => h (Except.ok.inj hc))
    | Except.error x, Except.error y =>
      if h : x = y then Decidable.isTrue (by rw [h])
      else Decidable.isFalse (fun hc => h (Except.error.inj hc))
    | Except.ok _, Except.error _ => Decidable.isFalse (fun hc => Except.noConfusion hc)
    | Except.error _, Except.ok _ => Decidable.isFalse (fun hc => Except.noConfusion hc)

structure SimpleResponseObj where
  ssml : String
deriving DecidableEq

structure ImageObj where
  url : String
  accessibilityText : String
deriving DecidableEq

structure BasicCardObj where
  title : Option String := none
  subtitle : Option String := none
  formattedText : Option String := none
  image : Option ImageObj := none
deriving DecidableEq

/-- One element of `data.google.richResponse.items`: a JS object that may
carry a `simpleResponse` key, a `basicCard` key, both or neither. -/
structure RichResponseItem where
  simpleResponse : Option SimpleResponseObj := none
  basicCard : Option BasicCardObj := none
deriving DecidableEq

/-- One element of the `contextOut` array: `{name, parameters}`, either key
possibly absent (`getContextOut` returns the bare object `\x7b\x7d` when no
name matches, which has neither key). -/
structure ContextObj where
  name : Option String := none
  parameters : Option (List (String × String)) := none
deriving DecidableEq

structure NoInputPrompt where
  ssml : String
deriving DecidableEq

structure SuggestionChip where
  title : String
deriving DecidableEq

structure LinkOutSuggestionObj where
  destinationName : String
  url : String
deriving DecidableEq

structure OptionInfoObj where
  key : String := ""
  synonyms : List String := []
deriving DecidableEq

structure OptionItemObj where
  title : Option String := none
  description : Option String := none
  image : Option ImageObj := none
  optionInfo : OptionInfoObj := {}
deriving DecidableEq

/-- Payload of `data.google.systemIntent.data`; `atType` models the
literal `"@type"` key. -/
structure SystemIntentData where
  listSelect : Option (List OptionItemObj) := none
  carouselSelect : Option (List OptionItemObj) := none
  atType : String
deriving DecidableEq

structure SystemIntentObj where
  intent : String
  data : SystemIntentData
deriving DecidableEq

/-- The flattened `responseObj`: `speech` and `contextOut` are top level in
the JS object, everything else lives under `data.google`. -/
structure ResponseObj where
  speech : String
  expectUserResponse : Bool
  items : List RichResponseItem
  suggestions : Option (List SuggestionChip) := none
  linkOutSuggestion : Option LinkOutSuggestionObj := none
  noInputPrompts : Option (List NoInputPrompt) := none
  systemIntent : Option SystemIntentObj := none
  permissions : Option (List String) := none
  contextOut : Option (List ContextObj) := none
deriving DecidableEq

/-- The default skeleton built by the constructor (lines 19-35). -/
def freshResponseObj : ResponseObj :=
  { speech := "<speak></speak>"
    expectUserResponse := true
    items := [] }

/-! ## Context operations -/

/-- The empty object `\x7b\x7d` returned by `getContextOut` on no match. -/
def emptyContextObj : ContextObj := {}

/-- The linear search of `getContextOut` (lines 42-49): first matching
name wins, otherwise the empty object.  An element whose `name` key is
absent never matches (`undefined === name` is false). -/
def findContext : List ContextObj → String → ContextObj
  | [], _ => emptyContextObj
  | c :: rest, n => if c.name = some n then c else findContext rest n

/-- `getContextOut(name)`: reading `this.responseObj.contextOut.length`
throws a TypeError when `contextOut` is `undefined` (the constructor never
creates it). -/
def getContextOut (d : ResponseObj) (name : String) : Except JSError ContextObj :=
  match d.contextOut with
  | none => Except.error JSError.typeError
  | some cs => Except.ok (findContext cs name)

/-- `setContextOut(contexts)` (line 56). -/
def setContextOut (d : ResponseObj) (contexts : List ContextObj) : ResponseObj :=
  { d with contextOut := some contexts }

/-- Assignment into the `parameters` map, as `_.set(context, 'parameters.' + pn, v)`
does once the `parameters` object exists: overwrite the key or add it at the end. -/
def setAssoc : List (String × String) → String → String → List (String × String)
  | [], k, v => [(k, v)]
  | (k', w) :: rest, k, v =>
    if k' = k then (k, v) :: rest else (k', w) :: setAssoc rest k v

/-- `_.set(context, 'parameters.' + pn, v)` on one context object:
creates the `parameters` map when absent, then sets the key. -/
def setContextParameter (c : ContextObj) (pn v : String) : ContextObj :=
  { c with parameters := some (setAssoc (c.parameters.getD []) pn v) }

/-- Apply `setContextParameter` to the first context whose name matches. -/
def setParamOnFirst : List ContextObj → String → String → String → List ContextObj
  | [], _, _, _ => []
  | c :: rest, cn, pn, v =>
    if c.name = some cn then setContextParameter c pn v :: rest
    else c :: setParamOnFirst rest cn pn v

/-- `addContextOutParameter(contextName, parameterName, value)` (lines 75-79).
In JS, `_.set` mutates the object returned by `getContextOut`; that object
is the stored array element (a shared reference) exactly when a context
with the given name exists, and otherwise it is the transient empty object,
whose mutation is invisible in the document.  The embedding renders this
aliasing explicitly: update the first matching stored context when one
exists, otherwise return the document unchanged. -/
def addContextOutParameter (d : ResponseObj) (contextName parameterName value : String) :
    Except JSError ResponseObj :=
  match d.contextOut with
  | none => Except.error JSError.typeError
  | some cs =>
    if cs.any (fun c => decide (c.name = some contextName)) then
      Except.ok { d with contextOut := some (setParamOnFirst cs contextName parameterName value) }
    else
      Except.ok d

/-- Lookup in the `parameters` map: `context.parameters[parameterName]`,
`none` modelling `undefined`. -/
def assocLookup : List (String × String) → String → Option String
  | [], _ => none
  | (k, w) :: rest, key => if k = key then some w else assocLookup rest key

/-- JS truthiness of the value returned by `getContextOut`: it is always an
object (a stored context or the empty object), and every JS object is
truthy, so the `if (!context)` guards in the source can never fire. -/
def jsObjectIsFalsy (_ : ContextObj) : Bool := false

/-- `Object.keys(context).length` for the modelled two-key context shape. -/
def contextKeyCount (c : ContextObj) : Nat :=
  (if c.name.isSome then 1 else 0) + (if c.parameters.isSome then 1 else 0)

/-- `getContextOutParameter(contextName, parameterName)` (lines 87-93):
the `!context` guard would throw `new Error('No context with name ... found.')`
but is unreachable; reading `context.parameters[parameterName]` throws a
TypeError when the context has no `parameters` key. -/
def getContextOutParameter (d : ResponseObj) (contextName parameterName : String) :
    Except JSError (Option String) :=
  match getContextOut d contextName with
  | Except.error e => Except.error e
  | Except.ok ctx =>
    if jsObjectIsFalsy ctx then
      Except.error (JSError.error ("No context with name " ++ contextName ++ " found."))
    else
      match ctx.parameters with
      | none => Except.error JSError.typeError
      | some ps => Except.ok (assocLookup ps parameterName)

/-! ## Permission operations -/

/-- `getPermissions()` (lines 99-101): `_.get` with default `[]`. -/
def getPermissions (d : ResponseObj) : List String :=
  d.permissions.getD []

/-- `_.uniq`: keep the first occurrence of each element, in order. -/
def uniqAux (seen : List String) : List String → List String
  | [] => []
  | x :: rest => if x ∈ seen then uniqAux seen rest else x :: uniqAux (x :: seen) rest

def lodashUniq (l : List String) : List String := uniqAux [] l

/-- `setPermissionToResponse(permission)` (lines 633-641): read the current
array (default `[]`), push the permission, deduplicate, store back. -/
def setPermissionToResponse (d : ResponseObj) (permission : String) : ResponseObj :=
  { d with permissions := some (lodashUniq (getPermissions d ++ [permission])) }

def setNamePermission (d : ResponseObj) : ResponseObj :=
  setPermissionToResponse d ("NAME")

def setDeviceCoarseLocationPermission (d : ResponseObj) : ResponseObj :=
  setPermissionToResponse d ("DEVICE_COARSE_LOCATION")

def setDevicePreciseLocationPermission (d : ResponseObj) : ResponseObj :=
  setPermissionToResponse d ("DEVICE_PRECISE_LOCATION")

/-! ## Speech operations -/

/-- `tell(speech)` (lines 134-145): the speech argument is stored verbatim
in `speech` and in the unshifted `simpleResponse` item; nothing is wrapped
here. -/
def tell (d : ResponseObj) (speech : String) : ResponseObj :=
  { d with
    speech := speech
    expectUserResponse := false
    items := { simpleResponse := some { ssml := speech } } :: d.items }

/-- `ask(speech, repromptSpeech)` (lines 155-171): speech and reprompt are
both stored verbatim; `noInputPrompts` is replaced wholesale. -/
def ask (d : ResponseObj) (speech repromptSpeech : String) : ResponseObj :=
  { d with
    speech := speech
    expectUserResponse := true
    items := { simpleResponse := some { ssml := speech } } :: d.items
    noInputPrompts := some [{ ssml := repromptSpeech }] }

/-- The audio speech string built by `play` and `isPlay`. -/
def playSpeech (audioUrl fallbackText : String) : String :=
  "<speak><audio src=\"" ++ audioUrl ++ "\">" ++ fallbackText ++ "</audio></speak>"

/-- `play(audioUrl, fallbackText)` (lines 181-184). -/
def play (d : ResponseObj) (audioUrl fallbackText : String) : ResponseObj :=
  tell d (playSpeech audioUrl fallbackText)

/-- `getSpeechText()` (lines 190-198): evaluating
`items[0].simpleResponse.ssml` throws a TypeError when `items` is empty
(`items[0]` is `undefined`) or when the head item has no `simpleResponse`;
a falsy (empty) `ssml` falls through to `return ''`. -/
def getSpeechText (d : ResponseObj) : Except JSError String :=
  match d.items with
  | [] => Except.error JSError.typeError
  | it :: _ =>
    match it.simpleResponse with
    | none => Except.error JSError.typeError
    | some sr =>
      if sr.ssml ≠ "" then Except.ok (removeSpeakTags sr.ssml) else Except.ok ("")

/-! ## System intents -/

/-- `addList(list)` (lines 301-312): `_.set` overwrites `data.google.systemIntent`. -/
def addList (d : ResponseObj) (list : List OptionItemObj) : ResponseObj :=
  { d with systemIntent := some (
      { intent := "actions.intent.OPTION",
        data := { listSelect := some list,
                  carouselSelect := none,
                  atType := "type.googleapis.com/google.actions.v2.OptionValueSpec" } }
      : SystemIntentObj) }

/-- `addCarousel(carousel)` (lines 319-330). -/
def addCarousel (d : ResponseObj) (carousel : List OptionItemObj) : ResponseObj :=
  { d with systemIntent := some (
      { intent := "actions.intent.OPTION",
        data := { listSelect := none,
                  carouselSelect := some carousel,
                  atType := "type.googleapis.com/google.actions.v2.OptionValueSpec" } }
      : SystemIntentObj) }

/-- One `addList`/`addCarousel` call, for reasoning about call sequences. -/
inductive LCCall where
  | list (items : List OptionItemObj)
  | carousel (items : List OptionItemObj)

def applyLCCall (d : ResponseObj) : LCCall → ResponseObj
  | LCCall.list items => addList d items
  | LCCall.carousel items => addCarousel d items

def applyLCCalls (d : ResponseObj) (calls : List LCCall) : ResponseObj :=
  calls.foldl applyLCCall d

/-! ## Introspection predicates

Each `try/catch`-wrapped predicate is split into a body in `Except`
(faithful to the statements inside `try`) and the catching wrapper that
collapses any raised error to `false`.  All predicates get the uniform
type `Except JSError Bool` so that throwing and non-throwing ones can be
compared; the wrapped ones always return `Except.ok`.
-/

/-- The JS `catch (err) : return false`. -/
def catchF : Except JSError Bool → Bool
  | Except.ok b => b
  | Except.error _ => false

/-- The speech comparison block shared by `isTell` (lines 352-360) and
`isAsk` (lines 380-389): skipped for a falsy argument; compares `speech`
and then `items[0].simpleResponse.ssml` against `toSSML(speechText)`;
evaluating `items[0].simpleResponse` throws when `items` is empty or the
head item lacks the key.  `ok true` means the checks passed. -/
def checkSpeechMatch (d : ResponseObj) (speechText : String) : Except JSError Bool :=
  if speechText = "" then Except.ok true
  else if d.speech ≠ toSSML speechText then Except.ok false
  else
    match d.items with
    | [] => Except.error JSError.typeError
    | it :: _ =>
      match it.simpleResponse with
      | none => Except.error JSError.typeError
      | some sr =>
        if sr.ssml ≠ toSSML speechText then Except.ok false else Except.ok true

/-- The `try` block of `isTell` (lines 346-365). -/
def isTellBody (d : ResponseObj) (speechText : String) : Except JSError Bool :=
  if d.expectUserResponse ≠ false then Except.ok false
  else checkSpeechMatch d speechText

/-- `isTell(speechText)`: the whole body is inside `try/catch`. -/
def isTell (d : ResponseObj) (speechText : String) : Except JSError Bool :=
  Except.ok (catchF (isTellBody d speechText))

/-- The reprompt comparison block of `isAsk` (lines 390-395): skipped for a
falsy argument; `noInputPrompts[0].ssml` throws when `noInputPrompts` is
absent or empty. -/
def checkRepromptMatch (d : ResponseObj) (repromptText : String) : Except JSError Bool :=
  if repromptText = "" then Except.ok true
  else
    match d.noInputPrompts with
    | none => Except.error JSError.typeError
    | some [] => Except.error JSError.typeError
    | some (pr :: _) =>
      if pr.ssml ≠ toSSML repromptText then Except.ok false else Except.ok true

/-- The `try` block of `isAsk` (lines 374-400). -/
def isAskBody (d : ResponseObj) (speechText repromptText : String) : Except JSError Bool :=
  if d.expectUserResponse ≠ true then Except.ok false
  else
    match checkSpeechMatch d speechText with
    | Except.error e => Except.error e
    | Except.ok false => Except.ok false
    | Except.ok true => checkRepromptMatch d repromptText

/-- `isAsk(speechText, repromptText)`: body inside `try/catch`. -/
def isAsk (d : ResponseObj) (speechText repromptText : String) : Except JSError Bool :=
  Except.ok (catchF (isAskBody d speechText repromptText))

/-- `isPlay(audioUrl, fallbackText)` (lines 408-411). -/
def isPlay (d : ResponseObj) (audioUrl fallbackText : String) : Except JSError Bool :=
  isTell d (playSpeech audioUrl fallbackText)

/-- `isEmptyResponse()` (lines 417-419). -/
def isEmptyResponse (d : ResponseObj) : Except JSError Bool :=
  isTell d ("<break time=\"1ms\"/>")

/-- `items.filter(item => item.basicCard)[0].basicCard`, shared by
`hasBasicCard` and `hasImageCard`. -/
def firstBasicCard (d : ResponseObj) : Option BasicCardObj :=
  ((d.items.filter (fun it => it.basicCard.isSome)).head?).bind (fun it => it.basicCard)

/-- The `try` block of `hasBasicCard` (lines 427-454). -/
def hasBasicCardBody (d : ResponseObj) (title formattedText : String) : Except JSError Bool :=
  match firstBasicCard d with
  | none => Except.ok false
  | some bc =>
    if title ≠ "" ∧ bc.title ≠ some title then Except.ok false
    else if formattedText ≠ "" ∧ bc.formattedText ≠ some formattedText then Except.ok false
    else Except.ok true

/-- `hasBasicCard(title, formattedText)`: body inside `try/catch`. -/
def hasBasicCard (d : ResponseObj) (title formattedText : String) : Except JSError Bool :=
  Except.ok (catchF (hasBasicCardBody d title formattedText))

/-- The accessibility-text comparison of `hasImageCard`:
`basicCards[0].basicCard.image.accessibilityText` throws when the card has
no image. -/
def imageAccessibilityCheck (bc : BasicCardObj) (accessibilityText : String) :
    Except JSError Bool :=
  if accessibilityText = "" then Except.ok true
  else
    match bc.image with
    | none => Except.error JSError.typeError
    | some im =>
      if im.accessibilityText ≠ accessibilityText then Except.ok false else Except.ok true

/-- The `try` block of `hasImageCard` (lines 468-492). -/
def hasImageCardBody (d : ResponseObj) (imageUrl accessibilityText : String) :
    Except JSError Bool :=
  match firstBasicCard d with
  | none => Except.ok false
  | some bc =>
    if imageUrl = "" then imageAccessibilityCheck bc accessibilityText
    else
      match bc.image with
      | none => Except.error JSError.typeError
      | some im =>
        if im.url ≠ imageUrl then Except.ok false
        else imageAccessibilityCheck bc accessibilityText

/-- `hasImageCard(title, formattedText, imageUrl, accessibilityText)`
(lines 464-494): first delegates to `hasBasicCard`, then runs its own
`try/catch` block. -/
def hasImageCard (d : ResponseObj) (title formattedText imageUrl accessibilityText : String) :
    Except JSError Bool :=
  if catchF (hasBasicCardBody d title formattedText) = false then Except.ok false
  else Except.ok (catchF (hasImageCardBody d imageUrl accessibilityText))

/-- `hasContextOutParameter(contextName, parameterName, value)`
(lines 503-516): NOT wrapped in `try/catch`; the initial `getContextOut`
call and the read of `context.parameters[parameterName]` can both throw. -/
def hasContextOutParameter (d : ResponseObj) (contextName parameterName : String)
    (value : Option String) : Except JSError Bool :=
  match getContextOut d contextName with
  | Except.error e => Except.error e
  | Except.ok ctx =>
    if jsObjectIsFalsy ctx ∨ contextKeyCount ctx = 0 then Except.ok false
    else if parameterName ≠ "" then
      match ctx.parameters with
      | none => Except.error JSError.typeError
      | some ps =>
        if assocLookup ps parameterName ≠ value then Except.ok false else Except.ok true
    else Except.ok true

/-- `hasState(state)` (lines 523-525). -/
def hasState (d : ResponseObj) (state : String) : Except JSError Bool :=
  hasContextOutParameter d ("session") ("STATE") (some state)

/-- `speechTextContains(str)` (lines 531-540) for a string argument (the
`instanceof Array` branch does not apply): `getSpeechText` is called
unguarded and its TypeErrors propagate. -/
def speechTextContains (d : ResponseObj) (str : String) : Except JSError Bool :=
  match getSpeechText d with
  | Except.error e => Except.error e
  | Except.ok t => Except.ok (substrB str.data t.data)

/-- Recognizer for the explicit `'No context with name ... found.'` error. -/
def isContextNotFoundResult : Except JSError (Option String) → Bool
  | Except.error (JSError.error _) => true
  | _ => false

/-- `Except.ok` test used to state which predicates never throw. -/
def isOkB : Except JSError Bool → Bool
  | Except.ok _ => true
  | Except.error _ => false

/-! ## Concrete documents used in witnesses and counterexamples -/

/-- A document whose `contextOut` exists but is empty, as after `setContextOut([])`. -/
def emptyContextArrayDoc : ResponseObj := { freshResponseObj with contextOut := some [] }

/-- A document storing one context named `other`. -/
def otherContextDoc : ResponseObj :=
  { freshResponseObj with contextOut := some [{ name := some ("other") }] }

/-- A document whose permission array already holds `DEVICE_COARSE_LOCATION`. -/
def permPrimedDoc : ResponseObj :=
  { freshResponseObj with permissions := some [("DEVICE_COARSE_LOCATION")] }

/-- A document whose head rich-response item is a card, not a simple response. -/
def noSimpleHeadDoc : ResponseObj :=
  { freshResponseObj with items := [{ basicCard := some {} }] }

/-- A document whose head item is a simple response with empty ssml. -/
def emptySsmlHeadDoc : ResponseObj :=
  { freshResponseObj with items := [{ simpleResponse := some { ssml := "" } }] }

/-! ## Lemmas about the tag-removal scan -/

lemma removeAll_nil (pat : List Char) (f : Nat) : removeAll pat f [] = [] := by
  cases f <;> rfl

lemma removeAll_zero (pat : List Char) (s : List Char) : removeAll pat 0 s = s := by
  cases s <;> rfl

lemma removeAll_cons (pat : List Char) (f : Nat) (c : Char) (rest : List Char) :
    removeAll pat (f+1) (c :: rest) =
      if pat.isPrefixOf (c :: rest) then removeAll pat f (rest.drop (pat.length - 1))
      else c :: removeAll pat f rest := rfl

lemma substrB_cons (pat : List Char) (c : Char) (rest : List Char) :
    substrB pat (c :: rest) = (pat.isPrefixOf (c :: rest) || substrB pat rest) := rfl

lemma substrB_false_cons (pat : List Char) (c : Char) (rest : List Char)
    (h : substrB pat (c :: rest) = false) :
    pat.isPrefixOf (c :: rest) = false ∧ substrB pat rest = false := by
  simpa [substrB_cons] using h

lemma isPrefixOf_eq_true_iff (l₁ l₂ : List Char) : l₁.isPrefixOf l₂ = true ↔ l₁ <+: l₂ := by
  induction l₁ generalizing l₂ with
  | nil => simp [List.isPrefixOf]
  | cons a t ih =>
    cases l₂ with
    | nil => simp [List.isPrefixOf]
    | cons b t₂ =>
      simp only [List.isPrefixOf, Bool.and_eq_true, beq_iff_eq, ih]
      constructor
      · rintro ⟨rfl, u, rfl⟩
        exact ⟨u, rfl⟩
      · rintro ⟨u, hu⟩
        injection hu with h1 h2
        exact ⟨h1, u, h2⟩

lemma cons_prefix_cons_iff (a b : Char) (l₁ l₂ : List Char) :
    a :: l₁ <+: b :: l₂ ↔ a = b ∧ l₁ <+: l₂ := by
  constructor
  · rintro ⟨t, ht⟩
    injection ht with h1 h2
    exact ⟨h1, t, h2⟩
  · rintro ⟨rfl, t, ht⟩
    exact ⟨t, by rw [List.cons_append, ht]⟩

lemma prefix_of_append (pat a u : List Char) (h : pat <+: a ++ u) :
    pat <+: a ∨ (a <+: pat ∧ pat.drop a.length <+: u) := by
  induction a generalizing pat with
  | nil => exact Or.inr ⟨⟨pat, rfl⟩, by simpa using h⟩
  | cons c a' ih =>
    cases pat with
    | nil => exact Or.inl ⟨c :: a', rfl⟩
    | cons p pt =>
      rw [List.cons_append, cons_prefix_cons_iff] at h
      obtain ⟨rfl, h2⟩ := h
      rcases ih pt h2 with h3 | ⟨h3, h4⟩
      · exact Or.inl ((cons_prefix_cons_iff p p pt a').mpr ⟨rfl, h3⟩)
      · exact Or.inr ⟨(cons_prefix_cons_iff p p a' pt).mpr ⟨rfl, h3⟩, by simpa using h4⟩

lemma eq_of_prefix_ge (a pat : List Char) (h : a <+: pat) (hl : pat.length ≤ a.length) :
    a = pat := by
  obtain ⟨t, ht⟩ := h
  have h0 : t = [] := by
    have hlen : a.length + t.length ≤ a.length := by
      rw [← List.length_append, ht]; exact hl
    have : t.length = 0 := by omega
    exact List.length_eq_zero.mp this
  subst h0
  simpa using ht

lemma removeAll_fuel (pat : List Char) (hp : pat ≠ []) :
    ∀ f g s, s.length ≤ f → s.length ≤ g → removeAll pat f s = removeAll pat g s := by
  intro f
  induction f with
  | zero =>
    intro g s hf _
    have hs : s = [] := List.length_eq_zero.mp (Nat.le_zero.mp hf)
    subst hs
    simp [removeAll_nil]
  | succ f ih =>
    intro g s hf hg
    cases s with
    | nil => simp [removeAll_nil]
    | cons c rest =>
      cases g with
      | zero => simp at hg
      | succ g' =>
        have hplen : 1 ≤ pat.length := by
          cases pat with
          | nil => exact absurd rfl hp
          | cons a t => simp
        rw [removeAll_cons, removeAll_cons]
        by_cases hpre : pat.isPrefixOf (c :: rest)
        · rw [if_pos hpre, if_pos hpre]
          have hlen : (rest.drop (pat.length - 1)).length ≤ rest.length := by
            rw [List.length_drop]; omega
          have hr : rest.length ≤ f := by
            have := hf; simp [List.length_cons] at this; omega
          have hr' : rest.length ≤ g' := by
            have := hg; simp [List.length_cons] at this; omega
          exact ih g' _ (le_trans hlen hr) (le_trans hlen hr')
        · rw [if_neg hpre, if_neg hpre]
          have hr : rest.length ≤ f := by
            have := hf; simp [List.length_cons] at this; omega
          have hr' : rest.length ≤ g' := by
            have := hg; simp [List.length_cons] at this; omega
          exact congrArg (List.cons c) (ih g' rest hr hr')

lemma removeAll_of_not_substr (pat : List Char) :
    ∀ s f, substrB pat s = false → removeAll pat f s = s := by
  intro s
  induction s with
  | nil => intro f _; exact removeAll_nil pat f
  | cons c rest ih =>
    intro f h
    obtain ⟨h1, h2⟩ := substrB_false_cons pat c rest h
    cases f with
    | zero => exact removeAll_zero pat _
    | succ f =>
      rw [removeAll_cons, if_neg (by simp [h1])]
      exact congrArg (List.cons c) (ih f h2)

lemma drop_len_append (l₁ l₂ : List Char) : (l₁ ++ l₂).drop l₁.length = l₂ := by
  induction l₁ with
  | nil => simp
  | cons a t ih => simp

lemma removeAll_head_match (pat x : List Char) (hp : pat ≠ []) (f : Nat) :
    removeAll pat (f+1) (pat ++ x) = removeAll pat f x := by
  cases pat with
  | nil => exact absurd rfl hp
  | cons p pt =>
    rw [List.cons_append, removeAll_cons]
    have hpre : (p :: pt).isPrefixOf (p :: (pt ++ x)) := by
      rw [isPrefixOf_eq_true_iff]
      exact ⟨x, by rw [List.cons_append]⟩
    rw [if_pos hpre]
    have hd : (pt ++ x).drop ((p :: pt).length - 1) = x := by
      have : (p :: pt).length - 1 = pt.length := by simp
      rw [this, drop_len_append]
    rw [hd]

lemma removeAll_append (pat : List Char) (hp : pat ≠ []) (x : List Char)
    (hs : ∀ k : Fin pat.length, k.val ≠ 0 → (pat.drop k.val).isPrefixOf x = false) :
    ∀ t f g, substrB pat t = false → t.length + x.length ≤ f → x.length ≤ g →
      removeAll pat f (t ++ x) = t ++ removeAll pat g x := by
  intro t
  induction t with
  | nil =>
    intro f g _ hf hg
    simpa using removeAll_fuel pat hp f g x (by simpa using hf) hg
  | cons c t' ih =>
    intro f g ht hf hg
    obtain ⟨h1, h2⟩ := substrB_false_cons pat c t' ht
    cases f with
    | zero => simp [List.length_cons] at hf
    | succ f =>
      rw [List.cons_append, removeAll_cons]
      have hpre : ¬ pat.isPrefixOf (c :: (t' ++ x)) := by
        intro hcon
        have hpp : pat <+: (c :: t') ++ x := by
          rw [← isPrefixOf_eq_true_iff]
          simpa [List.cons_append] using hcon
        rcases prefix_of_append pat (c :: t') x hpp with hc1 | ⟨hc1, hc2⟩
        · rw [← isPrefixOf_eq_true_iff] at hc1
          rw [h1] at hc1
          exact Bool.false_ne_true hc1
        · by_cases hk : (c :: t').length < pat.length
          · have hk0 : (c :: t').length ≠ 0 := by simp
            have := hs ⟨(c :: t').length, hk⟩ hk0
            rw [← isPrefixOf_eq_true_iff] at hc2
            rw [this] at hc2
            exact Bool.false_ne_true hc2
          · have heq : c :: t' = pat := eq_of_prefix_ge _ _ hc1 (by omega)
            have : pat.isPrefixOf (c :: t') = true := by
              rw [← heq, isPrefixOf_eq_true_iff]
            rw [h1] at this
            exact Bool.false_ne_true this
      rw [if_neg hpre]
      have hf' : t'.length + x.length ≤ f := by
        have := hf; simp [List.length_cons] at this; omega
      exact congrArg (List.cons c) (ih f g h2 hf' hg)

lemma sp_tag_ne_nil : spTag ≠ [] := by decide

lemma cl_tag_ne_nil : clTag ≠ [] := by decide

lemma sp_tag_length : spTag.length = 7 := by decide

lemma cl_tag_length : clTag.length = 8 := by decide

/-- No nonempty proper suffix-start of the opening tag begins the closing
tag, so an occurrence of the opening tag can never straddle a boundary into
the closing tag. -/
lemma sp_no_straddle_cl :
    ∀ k : Fin spTag.length, k.val ≠ 0 → (spTag.drop k.val).isPrefixOf clTag = false := by
  decide

/-- Same for occurrences of the closing tag straddling into a closing tag. -/
lemma cl_no_straddle_cl :
    ∀ k : Fin clTag.length, k.val ≠ 0 → (clTag.drop k.val).isPrefixOf clTag = false := by
  decide

lemma sp_not_substr_cl : substrB spTag clTag = false := by decide

/-- Stripping both tags from a wrapped tag-free text recovers the text. -/
lemma strip_wrapped (L : List Char)
    (h1 : substrB spTag L = false) (h2 : substrB clTag L = false) :
    jsRemoveAll clTag (jsRemoveAll spTag (spTag ++ L ++ clTag)) = L := by
  have step1 : jsRemoveAll spTag (spTag ++ L ++ clTag) = L ++ clTag := by
    unfold jsRemoveAll
    have hlen : (spTag ++ L ++ clTag).length = L.length + 14 + 1 := by
      simp [List.length_append, sp_tag_length, cl_tag_length]
      omega
    rw [hlen, List.append_assoc,
      removeAll_head_match spTag (L ++ clTag) sp_tag_ne_nil (L.length + 14),
      removeAll_append spTag sp_tag_ne_nil clTag sp_no_straddle_cl L (L.length + 14)
        clTag.length h1 (by rw [cl_tag_length]; omega) (le_refl _),
      removeAll_of_not_substr spTag clTag clTag.length sp_not_substr_cl]
  rw [step1]
  unfold jsRemoveAll
  rw [removeAll_append clTag cl_tag_ne_nil clTag cl_no_straddle_cl L ((L ++ clTag).length)
    clTag.length h2 (by simp [List.length_append]) (le_refl _)]
  have hrm : removeAll clTag clTag.length clTag = [] := by decide
  rw [hrm, List.append_nil]

lemma string_mk_data (s : String) : String.mk s.data = s := rfl

/-- C6: for every text `t` containing no envelope tags,
`unwrap(wrap(t)) = t` and `wrap(wrap(t)) = wrap(t)`, where `wrap` is
`toSSML` and `unwrap` is `removeSpeakTags`. -/
theorem speech_markup_roundtrip (t : String)
    (h1 : substrB spTag t.data = false) (h2 : substrB clTag t.data = false) :
    removeSpeakTags (toSSML t) = t ∧ toSSML (toSSML t) = toSSML t := by
  have hid : (removeSpeakTags t).data = t.data := by
    show jsRemoveAll clTag (jsRemoveAll spTag t.data) = t.data
    rw [jsRemoveAll, jsRemoveAll,
      removeAll_of_not_substr spTag t.data t.data.length h1,
      removeAll_of_not_substr clTag t.data t.data.length h2]
  have hstrip : (removeSpeakTags (toSSML t)).data = t.data := by
    show jsRemoveAll clTag (jsRemoveAll spTag (spTag ++ (removeSpeakTags t).data ++ clTag))
      = t.data
    rw [hid]
    exact strip_wrapped t.data h1 h2
  constructor
  · have hc : String.mk ((removeSpeakTags (toSSML t)).data) = String.mk t.data := by
      rw [hstrip]
    rw [string_mk_data] at hc
    rw [hc, string_mk_data]
  · show String.mk (spTag ++ (removeSpeakTags (toSSML t)).data ++ clTag)
      = String.mk (spTag ++ (removeSpeakTags t).data ++ clTag)
    rw [hstrip, hid]

/-- Witness for C6 at the concrete tag-free text `hello`. -/
theorem speech_markup_roundtrip_witness :
    substrB spTag ("hello").data = false ∧ substrB clTag ("hello").data = false ∧
    (removeSpeakTags (toSSML ("hello")) = ("hello") ∧
      toSSML (toSSML ("hello")) = toSSML ("hello")) :=
  ⟨by decide, by decide, speech_markup_roundtrip ("hello") (by decide) (by decide)⟩

/-- C1 (amended): `tell(s)` stores `s` verbatim in `speech` (it does NOT
wrap it), sets `expectUserResponse` to `false`, and prepends
`simpleResponse.ssml = s` (also verbatim) to the rich-response items;
consequently `isTell(s)` afterwards holds exactly when `s` is empty or
already equal to its own wrapped form `toSSML s`. -/
theorem tell_behavior (d : ResponseObj) (s : String) :
    (tell d s).speech = s ∧
    (tell d s).expectUserResponse = false ∧
    (tell d s).items = { simpleResponse := some { ssml := s } } :: d.items ∧
    isTell (tell d s) s = Except.ok ((decide (s = "")) || (decide (s = toSSML s))) := by
  refine ⟨rfl, rfl, rfl, ?_⟩
  by_cases hs : s = ""
  · subst hs
    simp [isTell, isTellBody, checkSpeechMatch, catchF, tell]
  · by_cases hw : s = toSSML s
    · simp [isTell, isTellBody, checkSpeechMatch, catchF, tell, hs, ← hw]
    · simp [isTell, isTellBody, checkSpeechMatch, catchF, tell, hs, hw]

/-- C1 counterexample: at the unwrapped input `hello`, `tell` stores the
raw text (not `toSSML ("hello") = <speak>hello</speak>`) and `isTell`
returns `false`, not `true`. -/
theorem tell_no_wrap_cex :
    (tell freshResponseObj ("hello")).speech = ("hello") ∧
    (decide ((tell freshResponseObj ("hello")).speech = toSSML ("hello"))) = false ∧
    isTell (tell freshResponseObj ("hello")) ("hello") = Except.ok false := by
  refine ⟨rfl, by decide, rfl⟩

/-- C2 (amended): `ask(s, r)` sets `expectUserResponse` to `true` and
replaces `noInputPrompts` with the single element `ssml = r`, storing `r`
verbatim (not wrapped); `speech` and the prepended item also store `s`
verbatim, so `isAsk(s, r)` afterwards holds exactly when each nonempty
argument equals its own wrapped form. -/
theorem ask_behavior (d : ResponseObj) (s r : String) :
    (ask d s r).expectUserResponse = true ∧
    (ask d s r).noInputPrompts = some [{ ssml := r }] ∧
    (ask d s r).speech = s ∧
    (ask d s r).items = { simpleResponse := some { ssml := s } } :: d.items ∧
    isAsk (ask d s r) s r =
      Except.ok (((decide (s = "")) || (decide (s = toSSML s))) &&
                 ((decide (r = "")) || (decide (r = toSSML r)))) := by
  refine ⟨rfl, rfl, rfl, rfl, ?_⟩
  by_cases hs : s = ""
  · subst hs
    by_cases hr : r = ""
    · subst hr
      simp [isAsk, isAskBody, checkSpeechMatch, checkRepromptMatch, catchF, ask]
    · by_cases hv : r = toSSML r
      · simp [isAsk, isAskBody, checkSpeechMatch, checkRepromptMatch, catchF, ask, hr, ← hv]
      · simp [isAsk, isAskBody, checkSpeechMatch, checkRepromptMatch, catchF, ask, hr, hv]
  · by_cases hw : s = toSSML s
    · by_cases hr : r = ""
      · subst hr
        simp [isAsk, isAskBody, checkSpeechMatch, checkRepromptMatch, catchF, ask, hs, ← hw]
      · by_cases hv : r = toSSML r
        · simp [isAsk, isAskBody, checkSpeechMatch, checkRepromptMatch, catchF, ask, hs, hr,
            ← hw, ← hv]
        · simp [isAsk, isAskBody, checkSpeechMatch, checkRepromptMatch, catchF, ask, hs, hr,
            ← hw, hv]
    · simp [isAsk, isAskBody, checkSpeechMatch, checkRepromptMatch, catchF, ask, hs, hw]

/-- C2 counterexample: after `ask` with plain (unwrapped) speech and
reprompt, `isAsk` with the same arguments returns `false`, because the
stored verbatim reprompt is compared against its wrapped form. -/
theorem ask_isAsk_cex :
    (ask freshResponseObj ("hi") ("there")).noInputPrompts = some [{ ssml := "there" }] ∧
    isAsk (ask freshResponseObj ("hi") ("there")) ("hi") ("there") = Except.ok false := by
  refine ⟨rfl, rfl⟩

/-- C3 (amended): the six `try/catch`-wrapped predicates (`isTell`,
`isAsk`, `isPlay`, `isEmptyResponse`, `hasBasicCard`, `hasImageCard`)
always return a value and never propagate an error; but
`hasContextOutParameter`, `hasState` and `speechTextContains` are not
guarded, and on a fresh document (no `contextOut` array, empty `items`)
they propagate a TypeError instead of returning `false`. -/
theorem predicate_fault_behavior (d : ResponseObj)
    (s r u f t x cn pn st sub : String) (v : Option String) :
    isOkB (isTell d s) = true ∧
    isOkB (isAsk d s r) = true ∧
    isOkB (isPlay d u f) = true ∧
    isOkB (isEmptyResponse d) = true ∧
    isOkB (hasBasicCard d t x) = true ∧
    isOkB (hasImageCard d t x u f) = true ∧
    hasContextOutParameter freshResponseObj cn pn v = Except.error JSError.typeError ∧
    hasState freshResponseObj st = Except.error JSError.typeError ∧
    speechTextContains freshResponseObj sub = Except.error JSError.typeError := by
  refine ⟨rfl, rfl, rfl, rfl, rfl, ?_, rfl, rfl, rfl⟩
  unfold hasImageCard
  split_ifs <;> rfl

/-- C3 counterexample: on the fresh default document, the unguarded
predicates throw a TypeError rather than returning `false`. -/
theorem predicates_total_cex :
    hasContextOutParameter freshResponseObj ("session") ("STATE") (some ("X"))
      = Except.error JSError.typeError ∧
    hasState freshResponseObj ("X") = Except.error JSError.typeError ∧
    speechTextContains freshResponseObj ("hi") = Except.error JSError.typeError :=
  ⟨rfl, rfl, rfl⟩

/-- C4 (amended): `getSpeechText` throws a TypeError when `items` is empty
or the head item is not a simple response; it returns the empty string
only in the guarded case where the head simple response has empty ssml. -/
theorem getSpeechText_behavior (d : ResponseObj) :
    (d.items = [] → getSpeechText d = Except.error JSError.typeError) ∧
    (∀ it rest, d.items = it :: rest → it.simpleResponse = none →
      getSpeechText d = Except.error JSError.typeError) ∧
    (∀ it rest sr, d.items = it :: rest → it.simpleResponse = some sr → sr.ssml = "" →
      getSpeechText d = Except.ok ("")) := by
  refine ⟨?_, ?_, ?_⟩ <;> intros <;> simp_all [getSpeechText]

/-- Witness for C4 on the three concrete document shapes. -/
theorem getSpeechText_behavior_witness :
    getSpeechText freshResponseObj = Except.error JSError.typeError ∧
    getSpeechText noSimpleHeadDoc = Except.error JSError.typeError ∧
    getSpeechText emptySsmlHeadDoc = Except.ok ("") :=
  ⟨(getSpeechText_behavior freshResponseObj).1 rfl,
   (getSpeechText_behavior noSimpleHeadDoc).2.1 _ _ rfl rfl,
   (getSpeechText_behavior emptySsmlHeadDoc).2.2 _ _ _ rfl rfl rfl⟩

/-- C4 counterexample: on the fresh document (empty `items`),
`getSpeechText` faults with a TypeError instead of returning the empty
string. -/
theorem getSpeechText_empty_items_cex :
    freshResponseObj.items = [] ∧
    getSpeechText freshResponseObj = Except.error JSError.typeError ∧
    (decide (getSpeechText freshResponseObj = Except.ok (""))) = false :=
  ⟨rfl, rfl, by decide⟩

/-- C5 (amended): on a document with no `contextOut` array, both
`getContextOut` and `getContextOutParameter` throw a TypeError; with an
empty `contextOut` array, `getContextOut` returns the empty object without
failing while `getContextOutParameter` still fails, but with a TypeError
(reading `parameters` of the empty object), never with the explicit
`No context with name ... found.` error, whose guard is unreachable. -/
theorem context_lookup_failure_modes (n pn : String) :
    getContextOut freshResponseObj n = Except.error JSError.typeError ∧
    getContextOutParameter freshResponseObj n pn = Except.error JSError.typeError ∧
    getContextOut emptyContextArrayDoc n = Except.ok emptyContextObj ∧
    getContextOutParameter emptyContextArrayDoc n pn = Except.error JSError.typeError ∧
    (∀ d : ResponseObj, isContextNotFoundResult (getContextOutParameter d n pn) = false) := by
  refine ⟨rfl, rfl, rfl, rfl, ?_⟩
  intro d
  unfold getContextOutParameter getContextOut
  cases hc : d.contextOut with
  | none => rfl
  | some cs =>
    show isContextNotFoundResult
        (match (findContext cs n).parameters with
          | none => Except.error JSError.typeError
          | some ps => Except.ok (assocLookup ps pn)) = false
    cases hp : (findContext cs n).parameters <;> rfl

/-- C5 counterexample: with stored-but-empty contexts the failure of
`getContextOutParameter` is a TypeError, not the ContextNotFound error the
claim names; and on the fresh document even `getContextOut` fails instead
of returning the empty object. -/
theorem getContextOutParameter_error_kind_cex :
    getContextOutParameter emptyContextArrayDoc ("session") ("STATE")
      = Except.error JSError.typeError ∧
    isContextNotFoundResult
      (getContextOutParameter emptyContextArrayDoc ("session") ("STATE")) = false ∧
    getContextOut freshResponseObj ("session") = Except.error JSError.typeError :=
  ⟨rfl, rfl, rfl⟩

/-- C10: the fresh default document has `expectUserResponse = true`, so the
no-argument `isAsk` holds and the no-argument `isTell` does not. -/
theorem fresh_doc_default_is_ask :
    freshResponseObj.expectUserResponse = true ∧
    isAsk freshResponseObj ("") ("") = Except.ok true ∧
    isTell freshResponseObj ("") = Except.ok false :=
  ⟨rfl, rfl, rfl⟩

/-! ## Lemmas about deduplication -/

lemma mem_uniqAux (a : String) :
    ∀ (l seen : List String), a ∈ uniqAux seen l ↔ a ∈ l ∧ a ∉ seen := by
  intro l
  induction l with
  | nil => intro seen; simp [uniqAux]
  | cons x rest ih =>
    intro seen
    by_cases hx : x ∈ seen
    · rw [uniqAux, if_pos hx, ih, List.mem_cons]
      by_cases hax : a = x
      · subst hax; tauto
      · tauto
    · rw [uniqAux, if_neg hx, List.mem_cons, ih, List.mem_cons, List.mem_cons]
      by_cases hax : a = x
      · subst hax; tauto
      · tauto

lemma nodup_uniqAux : ∀ (l seen : List String), (uniqAux seen l).Nodup := by
  intro l
  induction l with
  | nil => intro seen; simp [uniqAux]
  | cons x rest ih =>
    intro seen
    by_cases hx : x ∈ seen
    · rw [uniqAux, if_pos hx]; exact ih seen
    · rw [uniqAux, if_neg hx]
      refine List.nodup_cons.mpr ⟨?_, ih (x :: seen)⟩
      intro hc
      exact ((mem_uniqAux x rest (x :: seen)).mp hc).2 (List.mem_cons_self x seen)

lemma count_lodashUniq_of_mem (a : String) (l : List String) (h : a ∈ l) :
    (lodashUniq l).count a = 1 :=
  List.count_eq_one_of_mem (nodup_uniqAux l [])
    ((mem_uniqAux a l []).mpr ⟨h, List.not_mem_nil a⟩)

/-- C7 (amended): for every document, requesting the same permission twice
leaves exactly one occurrence of it; starting from the fresh document (no
permission already present), requesting two distinct permissions yields
both in call order.  (On a document that already holds the second
permission, deduplication keeps its earlier position, so call order is not
preserved in general.) -/
theorem requestPermission_dedup (d : ResponseObj) (p p1 p2 : String) (hne : p1 ≠ p2) :
    (getPermissions (setPermissionToResponse (setPermissionToResponse d p) p)).count p = 1 ∧
    getPermissions (setPermissionToResponse (setPermissionToResponse freshResponseObj p1) p2)
      = [p1, p2] := by
  constructor
  · exact count_lodashUniq_of_mem p _ (by simp)
  · show lodashUniq (lodashUniq ([] ++ [p1]) ++ [p2]) = [p1, p2]
    simp [lodashUniq, uniqAux, Ne.symm hne]

/-- Witness for C7 at two concrete permission constants. -/
theorem requestPermission_dedup_witness :
    (getPermissions (setPermissionToResponse
        (setPermissionToResponse freshResponseObj ("NAME")) ("NAME"))).count ("NAME") = 1 ∧
    getPermissions (setPermissionToResponse
        (setPermissionToResponse freshResponseObj ("NAME")) ("DEVICE_COARSE_LOCATION"))
      = [("NAME"), ("DEVICE_COARSE_LOCATION")] :=
  requestPermission_dedup freshResponseObj ("NAME") ("NAME") ("DEVICE_COARSE_LOCATION")
    (by decide)

/-- C7 counterexample: on a document already holding
`DEVICE_COARSE_LOCATION`, requesting `NAME` and then
`DEVICE_COARSE_LOCATION` yields the values in the opposite of call order,
because deduplication keeps the first (pre-existing) occurrence. -/
theorem requestPermission_order_cex :
    getPermissions (setPermissionToResponse
        (setPermissionToResponse permPrimedDoc ("NAME")) ("DEVICE_COARSE_LOCATION"))
      = [("DEVICE_COARSE_LOCATION"), ("NAME")] := by
  decide

/-- C8: on a document that stores contexts but none with the requested
name, `addContextOutParameter` leaves the document unchanged (the `_.set`
lands on the transient empty object returned by lookup). -/
theorem addContextOutParameter_no_context_noop (d : ResponseObj) (cs : List ContextObj)
    (n pn v : String) (h1 : d.contextOut = some cs)
    (h2 : cs.any (fun c => decide (c.name = some n)) = false) :
    addContextOutParameter d n pn v = Except.ok d := by
  unfold addContextOutParameter
  rw [h1]
  simp [h2]

/-- Witness for C8 on a document holding one context named `other`. -/
theorem addContextOutParameter_no_context_noop_witness :
    addContextOutParameter otherContextDoc ("missing") ("k") ("v") = Except.ok otherContextDoc :=
  addContextOutParameter_no_context_noop otherContextDoc [{ name := some ("other") }]
    ("missing") ("k") ("v") rfl (by decide)

/-- C9: after any sequence of `addList`/`addCarousel` calls, `systemIntent`
reflects only the last call, carrying the literal intent
`actions.intent.OPTION`, payload key `listSelect` or `carouselSelect`, and
the literal OptionValueSpec type tag. -/
theorem addList_addCarousel_last_wins (d : ResponseObj) (calls : List LCCall)
    (l c : List OptionItemObj) :
    (applyLCCalls d (calls ++ [LCCall.list l])).systemIntent =
      some { intent := "actions.intent.OPTION",
             data := { listSelect := some l,
                       carouselSelect := none,
                       atType := "type.googleapis.com/google.actions.v2.OptionValueSpec" } } ∧
    (applyLCCalls d (calls ++ [LCCall.carousel c])).systemIntent =
      some { intent := "actions.intent.OPTION",
             data := { listSelect := none,
                       carouselSelect := some c,
                       atType := "type.googleapis.com/google.actions.v2.OptionValueSpec" } } := by
  constructor <;>
    simp [applyLCCalls, List.foldl_append, applyLCCall, addList, addCarousel]

end GoogleActionResponse
